import Mathlib

/-!
Verification of the claude-skill-factory batch pipeline.

Shallow embedding of the Python sources:
- `src/db/models.py` (BatchStatus, BatchJob, BatchItem),
- `src/db/connection.py` (create_batch_job, update_batch_item),
- `src/skills/base.py` (SkillErrorType, SkillResult, BaseSkill.run),
- `src/skills/claude_client.py` (call_claude_structured),
- `src/queue/tasks.py` (process_skill_batch, process_single_item, notify_completion),
- `src/api/main.py` (submit_batch, submit_csv_batch).

External collaborators (pydantic validation, json.loads, the Anthropic API,
the HTTP client, the wall clock) are passed in as explicit parameters; the
logic of the repository itself is embedded directly.
-/

namespace SkillFactory

/-! ## JSON values (Python dicts flowing through the pipeline) -/

/-- A JSON value, standing in for the Python values that flow through the
pipeline (`dict`, `list`, `str`, numbers, booleans, `None`). -/
inductive JsonVal where
  | str : String → JsonVal
  | num : Int → JsonVal
  | bool : Bool → JsonVal
  | null : JsonVal
  | arr : List JsonVal → JsonVal
  | obj : List (String × JsonVal) → JsonVal
deriving Repr

/-- A Python dict with string keys: the shape of skill inputs. -/
abbrev JsonDict := List (String × JsonVal)

/-- Python truthiness of a value, as used by
`if skill_result.success and skill_result.output:` in `base.py`:
`None`, `{}`, `[]`, `""`, `0` and `False` are falsy. -/
def pyTruthy : JsonVal → Bool
  | .str s => !s.isEmpty
  | .num n => n != 0
  | .bool b => b
  | .null => false
  | .arr l => !l.isEmpty
  | .obj l => !l.isEmpty

/-- Truthiness of an optional value (`None` is falsy). -/
def outputTruthy : Option JsonVal → Bool
  | none => false
  | some v => pyTruthy v

/-! ## `src/db/models.py` -/

/-- `BatchStatus` from `src/db/models.py`. -/
inductive BatchStatus where
  | queued
  | processing
  | completed
  | failed
deriving DecidableEq, Repr

/-- The mutable columns of a `BatchJob` row from `src/db/models.py`. -/
structure BatchJob where
  id : String
  skill_name : String
  status : BatchStatus
  total_items : Nat
  completed_items : Nat
  failed_items : Nat
deriving DecidableEq, Repr

/-! ## `src/db/connection.py` -/

/-- `create_batch_job` from `src/db/connection.py`: a fresh batch row with
status `processing` and zero counters. -/
def create_batch_job (batch_id : String) (skill_name : String) (total_items : Nat) : BatchJob :=
  { id := batch_id
    skill_name := skill_name
    status := .processing
    total_items := total_items
    completed_items := 0
    failed_items := 0 }

/-- The batch-level effect of `update_batch_item` from `src/db/connection.py`
(lines 79-102): increment `completed_items` on success, otherwise
`failed_items`, then re-read the job and set the status to `completed` when
`completed_items + failed_items >= total_items`. -/
def update_batch_item (success : Bool) (job : BatchJob) : BatchJob :=
  let job :=
    if success then { job with completed_items := job.completed_items + 1 }
    else { job with failed_items := job.failed_items + 1 }
  if job.completed_items + job.failed_items ≥ job.total_items then
    { job with status := .completed }
  else
    job

/-- A sequence of terminal item outcomes applied to a batch, in order; each
element records whether the item succeeded. -/
def applyUpdates (us : List Bool) (job : BatchJob) : BatchJob :=
  us.foldl (fun j s => update_batch_item s j) job

/-- Batch status observed after the first `k` item updates. -/
def statusAfter (batch_id skill_name : String) (n : Nat) (us : List Bool) (k : Nat) : BatchStatus :=
  (applyUpdates (us.take k) (create_batch_job batch_id skill_name n)).status

/-- Number of update steps at which the status flips to `completed`. -/
def completedTransitionCount (batch_id skill_name : String) (n : Nat) (us : List Bool) : Nat :=
  ((List.range us.length).filter fun k =>
    decide (statusAfter batch_id skill_name n us k ≠ .completed ∧
            statusAfter batch_id skill_name n us (k + 1) = .completed)).length

/-! ## `src/skills/base.py` -/

/-- `SkillErrorType` from `src/skills/base.py`. -/
inductive SkillErrorType where
  | validation_input
  | validation_output
  | api_error
  | rate_limit
  | timeout
  | confidence_low
  | source_not_found
deriving DecidableEq, Repr

/-- `SkillResult` from `src/skills/base.py`: the outcome of running a skill
on one input. `latency_ms` and `tokens_used` default to 0 as in the Python
dataclass. -/
structure SkillResult where
  success : Bool
  output : Option JsonVal
  error_type : Option SkillErrorType := none
  error_message : Option String := none
  tokens_used : Nat := 0
  latency_ms : Nat := 0
deriving Repr

/-- `BaseSkill` from `src/skills/base.py`, over the type `V` of validated
inputs (the pydantic model instance produced by `input_schema`).
`validate_input` and `validate_output` wrap pydantic `model_validate`:
they return the validated value or the `ValidationError` text, exactly the
`(is_valid, validated_or_error)` pair of the source. `execute` is the one
method a concrete skill implements. -/
structure BaseSkill (V : Type) where
  validate_input : JsonDict → Except String V
  validate_output : JsonVal → Except String JsonVal
  execute : V → SkillResult

/-- `BaseSkill.run` from `src/skills/base.py` (lines 83-119): validate the
input, short-circuiting with a `validation_input` failure; run `execute` and
overwrite its `latency_ms` with the measured elapsed time (passed here as
the explicit parameter `elapsed`); if the execute outcome is successful and
its output truthy, validate the output, downgrading to a
`validation_output` failure that keeps the raw output, tokens and latency. -/
def BaseSkill.run (skill : BaseSkill V) (elapsed : Nat) (raw_input : JsonDict) : SkillResult :=
  match skill.validate_input raw_input with
  | .error msg =>
      { success := false
        output := none
        error_type := some .validation_input
        error_message := some msg }
  | .ok validated =>
      let r0 := skill.execute validated
      let skill_result : SkillResult := { r0 with latency_ms := elapsed }
      match skill_result.success, skill_result.output with
      | true, some out =>
          if pyTruthy out then
            match skill.validate_output out with
            | .ok _ => skill_result
            | .error msg =>
                { success := false
                  output := some out
                  error_type := some .validation_output
                  error_message := some msg
                  tokens_used := skill_result.tokens_used
                  latency_ms := skill_result.latency_ms }
          else skill_result
      | _, _ => skill_result

/-! ## `src/skills/claude_client.py` -/

/-- Token usage reported by the completion provider. -/
structure ProviderUsage where
  input_tokens : Nat
  output_tokens : Nat
deriving DecidableEq, Repr

/-- What the external completion provider can come back with: a text
response with usage, a rate-limit error, or any other API error. -/
inductive ProviderResponse where
  | ok (text : String) (usage : ProviderUsage)
  | rateLimitError (msg : String)
  | apiError (msg : String)
deriving DecidableEq, Repr

/-- Python `str.startswith`, embedded at the character level so the model
stays executable. -/
def pyStartsWith (s pre : String) : Bool := pre.data.isPrefixOf s.data

/-- Python `str.split("\n")`, embedded at the character level: split the
character sequence at every newline, keeping empty segments, so that
`"".split("\n") == [""]` and a trailing newline yields a final empty
segment, exactly as in Python. -/
def splitOnNewlines (s : String) : List String :=
  (s.data.foldr
    (fun c acc =>
      match acc with
      | [] => [[c]]
      | g :: gs => if c = '\n' then [] :: (g :: gs) else (c :: g) :: gs)
    [[]]).map fun cs => String.mk cs

/-- The markdown-fence handling of `call_claude_structured`
(`src/skills/claude_client.py` lines 62-65): if the text starts with a
triple-backtick marker, split into lines (`raw_text.split("\n")`) and
rejoin all but the first and last (`"\n".join(lines[1:-1])`). -/
def stripMarkdownFence (raw_text : String) : String :=
  if pyStartsWith raw_text "```" then
    let lines := splitOnNewlines raw_text
    String.intercalate "\n" ((lines.drop 1).dropLast)
  else raw_text

/-- `call_claude_structured` from `src/skills/claude_client.py`.
`json_loads` stands for `json.loads` (error text for `JSONDecodeError`);
`model_validate` stands for pydantic validation against `output_schema`
followed by `.model_dump()`, returning the dumped dict on success or the
exception text on failure; `resp` is the provider's answer. -/
def call_claude_structured
    (model_validate : JsonVal → Except String JsonVal)
    (json_loads : String → Except String JsonVal)
    (resp : ProviderResponse) : SkillResult :=
  match resp with
  | .rateLimitError msg =>
      { success := false
        output := none
        error_type := some .rate_limit
        error_message := some msg }
  | .apiError msg =>
      { success := false
        output := none
        error_type := some .api_error
        error_message := some msg }
  | .ok text usage =>
      let raw_text := text.trim
      let raw_text := stripMarkdownFence raw_text
      match json_loads raw_text with
      | .error e =>
          { success := false
            output := some (.obj [("raw_response", .str raw_text)])
            error_type := some .validation_output
            error_message := some ("Invalid JSON from Claude: " ++ e)
            tokens_used := usage.input_tokens + usage.output_tokens }
      | .ok parsed =>
          match model_validate parsed with
          | .ok dumped =>
              { success := true
                output := some dumped
                tokens_used := usage.input_tokens + usage.output_tokens }
          | .error e =>
              { success := false
                output := some parsed
                error_type := some .validation_output
                error_message := some ("Schema validation failed: " ++ e)
                tokens_used := usage.input_tokens + usage.output_tokens }

/-! ## `src/queue/tasks.py` -/

/-- What one Celery execution of `process_single_item` does:
either it reaches the bottom of the task body and persists the result via
`update_batch_item`, or `self.retry` raises `Retry` (the task is requeued
with the given countdown), or `self.retry` re-raises the given exception
because `max_retries` is exhausted, in which case the task dies without
persisting anything. -/
inductive TaskOutcome where
  | persisted (result : SkillResult)
  | retry (countdown : Nat)
  | raised (msg : Option String)
deriving Repr

/-- One execution attempt of `process_single_item`
(`src/queue/tasks.py` lines 54-94) given the `SkillResult` produced by
`skill.run` on this attempt and the current value of
`self.request.retries`. Celery's `Task.retry` requeues the task while
`retries < max_retries` and otherwise re-raises the supplied exception. -/
def process_single_item_attempt (max_retries retries : Nat) (result : SkillResult) : TaskOutcome :=
  if !result.success && (result.error_type == some .rate_limit) then
    if retries < max_retries then .retry (30 * (retries + 1))
    else .raised (some "Rate limited")
  else if !result.success && (result.error_type == some .api_error) then
    if retries < max_retries then .retry 10
    else .raised result.error_message
  else .persisted result

/-- The whole lifecycle of one `process_single_item` task: attempts are
numbered by `retries = 0, 1, ...`; `results k` is what `skill.run` returns
on attempt `k`. The decorator sets `max_retries=5`, so at most 6 attempts
run and the fuel `6` is never exhausted. -/
def runSingleItemAux (results : Nat → SkillResult) (max_retries : Nat) :
    Nat → Nat → TaskOutcome
  | _, 0 => .raised none
  | retries, fuel + 1 =>
      match process_single_item_attempt max_retries retries (results retries) with
      | .retry _ => runSingleItemAux results max_retries (retries + 1) fuel
      | outcome => outcome

/-- `process_single_item` run to its terminal outcome, with the source's
`max_retries=5`. -/
def runSingleItem (results : Nat → SkillResult) : TaskOutcome :=
  runSingleItemAux results 5 0 6

/-- A `BatchItem` row as created by `create_batch_item`
(`src/db/connection.py` lines 43-53) from `process_skill_batch`. -/
structure BatchItemRec where
  id : String
  batch_id : String
  input_data : JsonDict
deriving Repr

/-- `process_skill_batch` from `src/queue/tasks.py` (lines 18-51), up to its
database effects: look the skill up in the registry (raising `ValueError`
when absent, before any record is created), then create the `BatchJob` row
and one `BatchItem` row per input with ids `batch_id:i`. -/
def process_skill_batch (registry : List String) (batch_id skill_name : String)
    (inputs : List JsonDict) : Except String (BatchJob × List BatchItemRec) :=
  if skill_name ∈ registry then
    .ok (create_batch_job batch_id skill_name inputs.length,
         inputs.enum.map fun p => ⟨batch_id ++ ":" ++ toString p.1, batch_id, p.2⟩)
  else
    .error ("Unknown skill: " ++ skill_name)

/-- The batch-status view returned by `get_batch_status`
(`src/db/connection.py` lines 113-130). -/
structure BatchStatusView where
  status : String
  total : Nat
  completed : Nat
  failed : Nat
deriving DecidableEq, Repr

/-- The JSON body posted by `notify_completion`. -/
structure WebhookPayload where
  batch_id : String
  status : String
  total : Nat
  completed : Nat
  failed : Nat
deriving DecidableEq, Repr

/-- What one run of `notify_completion` does. -/
inductive NotifyAction where
  | delivered (payload : WebhookPayload)
  | deliveryFailed (payload : WebhookPayload) (err : String)
  | rescheduled (countdown : Nat)
deriving DecidableEq, Repr

/-- `notify_completion` from `src/queue/tasks.py` (lines 97-123): read the
batch status; when it exists and is `completed`, post the payload once —
a post failure is only logged — otherwise reschedule the same check with a
30 second countdown. `post` stands for the `httpx` call and reports whether
the HTTP post raised. -/
def notify_completion (batch_id : String) (status : Option BatchStatusView)
    (post : WebhookPayload → Except String Unit) : NotifyAction :=
  match status with
  | some st =>
      if st.status = "completed" then
        let payload : WebhookPayload :=
          { batch_id := batch_id
            status := "completed"
            total := st.total
            completed := st.completed
            failed := st.failed }
        match post payload with
        | .ok _ => .delivered payload
        | .error e => .deliveryFailed payload e
      else .rescheduled 30
  | none => .rescheduled 30

/-- Number of delivery attempts over a whole notification loop: the
statuses observed at successive checks are given in order; rescheduling
moves to the next observation, anything else ends the loop. -/
def notifyDeliveryAttempts (batch_id : String)
    (post : WebhookPayload → Except String Unit) :
    List (Option BatchStatusView) → Nat
  | [] => 0
  | st :: rest =>
      match notify_completion batch_id st post with
      | .rescheduled _ => notifyDeliveryAttempts batch_id post rest
      | _ => 1

/-! ## `src/api/main.py` -/

/-- A `POST /batch` request body (`BatchSubmission` in `src/api/main.py`). -/
structure BatchSubmission where
  skill_name : String
  inputs : List JsonDict
  webhook_url : Option String
deriving Repr

/-- The `BatchResponse` body returned on acceptance. -/
structure BatchResponse where
  batch_id : String
  status : String
  item_count : Nat
  message : String
deriving DecidableEq, Repr

/-- An endpoint either returns a value or raises `HTTPException`. -/
inductive ApiResult (α : Type) where
  | ok (value : α)
  | httpError (code : Nat) (detail : String)
deriving DecidableEq, Repr

/-- A queued `process_skill_batch.delay(...)` call with its arguments. -/
structure ProcessCall where
  batch_id : String
  skill_name : String
  inputs : List JsonDict
  webhook_url : Option String
deriving Repr

/-- `submit_batch` from `src/api/main.py` (lines 65-95): reject with a 400
before anything else when the skill is not registered; otherwise draw a
fresh uuid (passed here as `freshId`), queue `process_skill_batch` and
answer with the batch id. The second component lists the queued calls. -/
def submit_batch (registry : List String) (freshId : String)
    (submission : BatchSubmission) : ApiResult BatchResponse × List ProcessCall :=
  if submission.skill_name ∉ registry then
    (.httpError 400 ("Unknown skill: " ++ submission.skill_name ++
       ". Use GET /skills to list available skills."), [])
  else
    (.ok { batch_id := freshId
           status := "queued"
           item_count := submission.inputs.length
           message := "Batch queued for processing with skill " ++ submission.skill_name },
     [{ batch_id := freshId
        skill_name := submission.skill_name
        inputs := submission.inputs
        webhook_url := submission.webhook_url }])

/-- `submit_csv_batch` from `src/api/main.py` (lines 98-131): reject a 400
for an unknown skill, then reject a 400 when the parsed CSV rows are empty,
otherwise queue the batch with no webhook. `rows` is the output of
`csv.DictReader` on the uploaded file. -/
def submit_csv_batch (registry : List String) (freshId : String)
    (skill_name : String) (rows : List JsonDict) :
    ApiResult BatchResponse × List ProcessCall :=
  if skill_name ∉ registry then
    (.httpError 400 ("Unknown skill: " ++ skill_name), [])
  else if rows.isEmpty then
    (.httpError 400 "CSV file is empty", [])
  else
    (.ok { batch_id := freshId
           status := "queued"
           item_count := rows.length
           message := "CSV batch queued" },
     [{ batch_id := freshId
        skill_name := skill_name
        inputs := rows
        webhook_url := none }])

/-! ## Helper lemmas about the batch counter state machine -/

theorem applyUpdates_cons (s : Bool) (us : List Bool) (j : BatchJob) :
    applyUpdates (s :: us) j = applyUpdates us (update_batch_item s j) := rfl

theorem count_true_add_count_false (us : List Bool) :
    us.count true + us.count false = us.length := by
  induction us with
  | nil => rfl
  | cons a l ih => cases a <;> simp [List.count_cons] <;> omega

/-- Closed form of a batch after a run of item updates that starts from a
`processing` job and never applies more updates than headroom allows:
the counters accumulate one increment per update and the status flips to
`completed` exactly when the updates fill the batch. -/
theorem applyUpdates_closed (us : List Bool) :
    ∀ (n c f : Nat) (bid sn : String), c + f + us.length ≤ n →
    applyUpdates us ⟨bid, sn, .processing, n, c, f⟩ =
      ⟨bid, sn,
       if us ≠ [] ∧ c + f + us.length = n then BatchStatus.completed else .processing,
       n, c + us.count true, f + us.count false⟩ := by
  induction us with
  | nil =>
      intro n c f bid sn h
      simp [applyUpdates]
  | cons s us ih =>
      intro n c f bid sn h
      rw [applyUpdates_cons]
      have hlen : (s :: us).length = us.length + 1 := rfl
      by_cases hc : n ≤ c + f + 1
      · have hus : us = [] := by
          have h0 : us.length = 0 := by rw [hlen] at h; omega
          exact List.length_eq_zero.mp h0
        subst hus
        have hn : c + f + 1 = n := by rw [hlen] at h; simp at h; omega
        cases s
        · have hstep : update_batch_item false ⟨bid, sn, .processing, n, c, f⟩ =
              ⟨bid, sn, .completed, n, c, f + 1⟩ := by
            simp [update_batch_item]; omega
          rw [hstep]
          simp [applyUpdates, List.count_cons, hn]
        · have hstep : update_batch_item true ⟨bid, sn, .processing, n, c, f⟩ =
              ⟨bid, sn, .completed, n, c + 1, f⟩ := by
            simp [update_batch_item]; omega
          rw [hstep]
          simp [applyUpdates, List.count_cons, hn]
      · cases s
        · have hstep : update_batch_item false ⟨bid, sn, .processing, n, c, f⟩ =
              ⟨bid, sn, .processing, n, c, f + 1⟩ := by
            simp [update_batch_item]; omega
          rw [hstep, ih n c (f + 1) bid sn (by rw [hlen] at h; omega)]
          by_cases hus : us = []
          · subst hus
            have hno : ¬ (c + f + 1 = n) := by omega
            simp [hno]
          · rw [show c + (f + 1) + us.length = c + f + (us.length + 1) from by omega]
            simp [hus, List.count_cons]
            all_goals omega
        · have hstep : update_batch_item true ⟨bid, sn, .processing, n, c, f⟩ =
              ⟨bid, sn, .processing, n, c + 1, f⟩ := by
            simp [update_batch_item]; omega
          rw [hstep, ih n (c + 1) f bid sn (by rw [hlen] at h; omega)]
          by_cases hus : us = []
          · subst hus
            have hno : ¬ (c + f + 1 = n) := by omega
            simp [hno]
          · rw [show c + 1 + f + us.length = c + f + (us.length + 1) from by omega]
            simp [hus, List.count_cons]
            all_goals omega

/-- Once a job is `completed`, any further `update_batch_item` keeps it
`completed`. -/
theorem update_batch_item_absorbs (s : Bool) (j : BatchJob)
    (h : j.status = .completed) : (update_batch_item s j).status = .completed := by
  cases s <;> simp [update_batch_item] <;> split <;> simp [h]

/-- A filter whose predicate pins its argument to a single value keeps at
most one element of a duplicate-free list. -/
theorem length_filter_le_one_of_unique (p : Nat → Bool) (m : Nat) :
    ∀ (l : List Nat), l.Nodup → (∀ k, p k = true → k = m) →
    (l.filter p).length ≤ 1 := by
  intro l
  induction l with
  | nil => intro _ _; simp
  | cons a l ih =>
      intro hnd hp
      rw [List.nodup_cons] at hnd
      by_cases hpa : p a = true
      · have ham : a = m := hp a hpa
        have hnil : l.filter p = [] := by
          rw [List.filter_eq_nil_iff]
          intro x hx hpx
          exact hnd.1 (by rw [ham, ← hp x hpx]; exact hx)
        simp [List.filter_cons, hpa, hnil]
      · simp only [List.filter_cons, hpa, Bool.false_eq_true, if_false]
        exact ih hnd.2 hp

/-! ## Claim theorems C1 and C2 -/

/-- **C1**: for a batch created with `totalItems` equal to the number of
its items, after any nonempty sequence of item updates (at most one per
item) the status is `completed` exactly when
`completed_items + failed_items = total_items`; the flip to `completed`
happens at most once along the run; and applying a further update to an
already-completed job leaves it `completed` (the transition is idempotent
when attempted again). -/
theorem claim_c1_completed_transition (bid sn : String) (n : Nat) (us : List Bool)
    (hne : us ≠ []) (hlen : us.length ≤ n) :
    ((applyUpdates us (create_batch_job bid sn n)).status = .completed ↔
      (applyUpdates us (create_batch_job bid sn n)).completed_items +
        (applyUpdates us (create_batch_job bid sn n)).failed_items =
        (applyUpdates us (create_batch_job bid sn n)).total_items) ∧
    completedTransitionCount bid sn n us ≤ 1 ∧
    (∀ (s : Bool) (j : BatchJob), j.status = .completed →
      (update_batch_item s j).status = .completed) := by
  have hcreate : create_batch_job bid sn n = ⟨bid, sn, .processing, n, 0, 0⟩ := rfl
  have hsum := count_true_add_count_false us
  refine ⟨?_, ?_, fun s j h => update_batch_item_absorbs s j h⟩
  · rw [hcreate, applyUpdates_closed us n 0 0 bid sn (by omega)]
    by_cases hn : us.length = n
    · simp [hne, hn]
    · have hno : ¬ (0 + 0 + us.length = n) := by omega
      simp [hne, hno]
  · unfold completedTransitionCount
    apply length_filter_le_one_of_unique _ (n - 1) _ (List.nodup_range _)
    intro k hk
    simp only [decide_eq_true_eq] at hk
    obtain ⟨hk1, hk2⟩ := hk
    unfold statusAfter at hk1 hk2
    rw [hcreate] at hk1 hk2
    rw [applyUpdates_closed (us.take k) n 0 0 bid sn
        (by simp [List.length_take]; omega)] at hk1
    rw [applyUpdates_closed (us.take (k + 1)) n 0 0 bid sn
        (by simp [List.length_take]; omega)] at hk2
    simp only [List.length_take] at hk1 hk2
    have hpos : 1 ≤ us.length := List.length_pos.mpr hne
    by_cases hc2 : us.take (k + 1) ≠ [] ∧ 0 + 0 + min (k + 1) us.length = n
    · by_cases hc1 : us.take k ≠ [] ∧ 0 + 0 + min k us.length = n
      · rw [if_pos hc1] at hk1
        exact absurd rfl hk1
      · rcases not_and_or.mp hc1 with hnil | hmin
        · have hk0 : k = 0 := by
            rcases List.take_eq_nil_iff.mp (not_not.mp hnil) with h0 | h0
            · exact h0
            · exact absurd h0 hne
          have := hc2.2
          omega
        · have := hc2.2
          omega
    · rw [if_neg hc2] at hk2
      exact absurd hk2 (by simp)

/-- **C1 witness**: the theorem instantiated on a two-item batch where one
item succeeds and one fails. -/
theorem claim_c1_witness :
    ((applyUpdates [true, false] (create_batch_job "b" "s" 2)).status = .completed ↔
      (applyUpdates [true, false] (create_batch_job "b" "s" 2)).completed_items +
        (applyUpdates [true, false] (create_batch_job "b" "s" 2)).failed_items =
        (applyUpdates [true, false] (create_batch_job "b" "s" 2)).total_items) ∧
    completedTransitionCount "b" "s" 2 [true, false] ≤ 1 ∧
    (∀ (s : Bool) (j : BatchJob), j.status = .completed →
      (update_batch_item s j).status = .completed) :=
  claim_c1_completed_transition "b" "s" 2 [true, false] (by decide) (by decide)

/-- **C2**: for a batch created with `totalItems` equal to the number of
its items, after any sequence of item updates (at most one per item)
`completed_items + failed_items ≤ total_items` holds, and each single
update increments exactly one of the two counters by exactly one while
leaving `total_items` unchanged. -/
theorem claim_c2_counter_invariant (bid sn : String) (n : Nat) (us : List Bool)
    (hlen : us.length ≤ n) :
    ((applyUpdates us (create_batch_job bid sn n)).completed_items +
      (applyUpdates us (create_batch_job bid sn n)).failed_items ≤
      (applyUpdates us (create_batch_job bid sn n)).total_items) ∧
    (∀ (j : BatchJob),
      (update_batch_item true j).completed_items = j.completed_items + 1 ∧
      (update_batch_item true j).failed_items = j.failed_items ∧
      (update_batch_item false j).failed_items = j.failed_items + 1 ∧
      (update_batch_item false j).completed_items = j.completed_items ∧
      (∀ (s : Bool), (update_batch_item s j).total_items = j.total_items)) := by
  have hcreate : create_batch_job bid sn n = ⟨bid, sn, .processing, n, 0, 0⟩ := rfl
  have hsum := count_true_add_count_false us
  constructor
  · rw [hcreate, applyUpdates_closed us n 0 0 bid sn (by omega)]
    simp only
    omega
  · intro j
    have h1 : (update_batch_item true j).completed_items = j.completed_items + 1 := by
      simp [update_batch_item]; split <;> simp
    have h2 : (update_batch_item true j).failed_items = j.failed_items := by
      simp [update_batch_item]; split <;> simp
    have h3 : (update_batch_item false j).failed_items = j.failed_items + 1 := by
      simp [update_batch_item]; split <;> simp
    have h4 : (update_batch_item false j).completed_items = j.completed_items := by
      simp [update_batch_item]; split <;> simp
    refine ⟨h1, h2, h3, h4, fun s => ?_⟩
    cases s <;> (simp [update_batch_item]; split <;> simp)

/-- **C2 witness**: the theorem instantiated on a three-item batch with two
successes and one failure. -/
theorem claim_c2_witness :
    ((applyUpdates [true, true, false] (create_batch_job "b" "s" 3)).completed_items +
      (applyUpdates [true, true, false] (create_batch_job "b" "s" 3)).failed_items ≤
      (applyUpdates [true, true, false] (create_batch_job "b" "s" 3)).total_items) ∧
    (∀ (j : BatchJob),
      (update_batch_item true j).completed_items = j.completed_items + 1 ∧
      (update_batch_item true j).failed_items = j.failed_items ∧
      (update_batch_item false j).failed_items = j.failed_items + 1 ∧
      (update_batch_item false j).completed_items = j.completed_items ∧
      (∀ (s : Bool), (update_batch_item s j).total_items = j.total_items)) :=
  claim_c2_counter_invariant "b" "s" 3 [true, true, false] (by decide)

/-! ## Claim theorems C3 and C4 -/

/-- A skill outcome classified as a rate limit, as produced by
`call_claude_structured` on `anthropic.RateLimitError`. -/
def rateLimitedResult : SkillResult :=
  { success := false
    output := none
    error_type := some .rate_limit
    error_message := some "rate limit exceeded" }

/-- A skill outcome classified as an API error. -/
def apiErrorResult : SkillResult :=
  { success := false
    output := none
    error_type := some .api_error
    error_message := some "server error" }

/-- A skill outcome classified as a timeout (terminal, never retried). -/
def timeoutResult : SkillResult :=
  { success := false
    output := none
    error_type := some .timeout
    error_message := some "timed out" }

/-- **C3**: the claim says that after the attempt cap is exhausted for a
retryable classification, the item's last outcome is persisted as a
permanent failure (incrementing `failed_items`). The code does not do
this: when every attempt of `process_single_item` comes back rate-limited,
the sixth call of `self.retry` re-raises its exception and the task dies
without ever calling `update_batch_item`, so no failure is persisted. -/
theorem claim_c3_retry_exhaustion_drops_failure :
    runSingleItem (fun _ => rateLimitedResult) = .raised (some "Rate limited") ∧
    (∀ (r : SkillResult), runSingleItem (fun _ => rateLimitedResult) ≠ .persisted r) := by
  constructor
  · rfl
  · intro r h
    rw [show runSingleItem (fun _ => rateLimitedResult) = .raised (some "Rate limited")
        from rfl] at h
    exact TaskOutcome.noConfusion h

/-- **C4**: the retry policy of `process_single_item` with the decorator's
`max_retries=5`: a failed rate-limited outcome is retried with delay
`30 * (retries + 1)` seconds while fewer than 5 retries have happened
(30s, 60s, 90s, ...); a failed API-error outcome is retried with a constant
10 second delay under the same cap; a successful outcome, and any failure
with another classification, is terminal immediately with zero retries. -/
theorem claim_c4_retry_policy (r : SkillResult) (retries : Nat) :
    (r.success = false → r.error_type = some .rate_limit →
      process_single_item_attempt 5 retries r =
        (if retries < 5 then .retry (30 * (retries + 1)) else .raised (some "Rate limited"))) ∧
    (r.success = false → r.error_type = some .api_error →
      process_single_item_attempt 5 retries r =
        (if retries < 5 then .retry 10 else .raised r.error_message)) ∧
    (r.success = true → process_single_item_attempt 5 retries r = .persisted r) ∧
    (r.error_type ≠ some .rate_limit → r.error_type ≠ some .api_error →
      process_single_item_attempt 5 retries r = .persisted r) := by
  refine ⟨?_, ?_, ?_, ?_⟩
  · intro h1 h2
    simp [process_single_item_attempt, h1, h2]
  · intro h1 h2
    simp [process_single_item_attempt, h1, h2]
  · intro h1
    simp [process_single_item_attempt, h1]
  · intro h1 h2
    simp [process_single_item_attempt, h1, h2]

/-- **C4 witness**: the policy evaluated on concrete attempts — rate-limit
delays 30s, 60s, 90s on the first three retries and a raise on the sixth
attempt; a constant 10s API-error delay; an immediately terminal timeout. -/
theorem claim_c4_witness :
    process_single_item_attempt 5 0 rateLimitedResult = .retry 30 ∧
    process_single_item_attempt 5 1 rateLimitedResult = .retry 60 ∧
    process_single_item_attempt 5 2 rateLimitedResult = .retry 90 ∧
    process_single_item_attempt 5 5 rateLimitedResult = .raised (some "Rate limited") ∧
    process_single_item_attempt 5 0 apiErrorResult = .retry 10 ∧
    process_single_item_attempt 5 4 apiErrorResult = .retry 10 ∧
    process_single_item_attempt 5 0 timeoutResult = .persisted timeoutResult :=
  ⟨((claim_c4_retry_policy rateLimitedResult 0).1 rfl rfl).trans rfl,
   ((claim_c4_retry_policy rateLimitedResult 1).1 rfl rfl).trans rfl,
   ((claim_c4_retry_policy rateLimitedResult 2).1 rfl rfl).trans rfl,
   ((claim_c4_retry_policy rateLimitedResult 5).1 rfl rfl).trans rfl,
   ((claim_c4_retry_policy apiErrorResult 0).2.1 rfl rfl).trans rfl,
   ((claim_c4_retry_policy apiErrorResult 4).2.1 rfl rfl).trans rfl,
   (claim_c4_retry_policy timeoutResult 0).2.2.2 (by simp [timeoutResult])
     (by simp [timeoutResult])⟩

/-! ## Claim theorems C5, C6 and C7 -/

/-- `run` on an input that fails validation. -/
theorem run_eq_error {V : Type} (skill : BaseSkill V) (elapsed : Nat)
    (raw : JsonDict) (msg : String)
    (hv : skill.validate_input raw = .error msg) :
    skill.run elapsed raw =
      { success := false
        output := none
        error_type := some .validation_input
        error_message := some msg } := by
  unfold BaseSkill.run
  rw [hv]

/-- `run` on an input that validates: the pipeline applied to the execute
outcome, with the latency overwritten by the measured elapsed time. -/
theorem run_ok_spec {V : Type} (skill : BaseSkill V) (elapsed : Nat)
    (raw : JsonDict) (v : V)
    (hv : skill.validate_input raw = .ok v) :
    skill.run elapsed raw =
      (let r := skill.execute v
       match r.success, r.output with
       | true, some out =>
           if pyTruthy out then
             match skill.validate_output out with
             | .ok _ => { r with latency_ms := elapsed }
             | .error msg =>
                 { success := false
                   output := some out
                   error_type := some .validation_output
                   error_message := some msg
                   tokens_used := r.tokens_used
                   latency_ms := elapsed }
           else { r with latency_ms := elapsed }
       | _, _ => { r with latency_ms := elapsed }) := by
  unfold BaseSkill.run
  rw [hv]

/-- **C5**: when input validation fails, `run` returns
`success=false` with `validation_input` classification and the validation
detail as the message, the output is null, `tokens_used` and `latency_ms`
are the zero defaults (latency is not measured on this path), and
`execute` is never invoked — the result does not depend on it at all. -/
theorem claim_c5_input_validation_short_circuit {V : Type}
    (skill : BaseSkill V) (elapsed : Nat) (raw : JsonDict) (msg : String)
    (h : skill.validate_input raw = .error msg) :
    skill.run elapsed raw =
      { success := false
        output := none
        error_type := some .validation_input
        error_message := some msg
        tokens_used := 0
        latency_ms := 0 } ∧
    (∀ (e₁ e₂ : V → SkillResult),
      ({ skill with execute := e₁ } : BaseSkill V).run elapsed raw =
        ({ skill with execute := e₂ } : BaseSkill V).run elapsed raw) := by
  constructor
  · unfold BaseSkill.run
    rw [h]
  · intro e₁ e₂
    unfold BaseSkill.run
    simp only []
    rw [show ({ skill with execute := e₁ } : BaseSkill V).validate_input = skill.validate_input
        from rfl]
    rw [show ({ skill with execute := e₂ } : BaseSkill V).validate_input = skill.validate_input
        from rfl]
    rw [h]

/-- A concrete skill whose input schema rejects everything. -/
def c5Skill : BaseSkill Unit :=
  { validate_input := fun _ => .error "invalid input"
    validate_output := fun v => .ok v
    execute := fun _ => { success := true, output := some (.obj [("k", .str "v")]) } }

/-- **C5 witness**: the theorem applied to a concrete skill and input. -/
theorem claim_c5_witness :
    c5Skill.run 7 [] =
      { success := false
        output := none
        error_type := some .validation_input
        error_message := some "invalid input"
        tokens_used := 0
        latency_ms := 0 } ∧
    (∀ (e₁ e₂ : Unit → SkillResult),
      ({ c5Skill with execute := e₁ } : BaseSkill Unit).run 7 [] =
        ({ c5Skill with execute := e₂ } : BaseSkill Unit).run 7 []) :=
  claim_c5_input_validation_short_circuit c5Skill 7 [] "invalid input" rfl

/-- A concrete skill whose `execute` reports success with the empty object
as output while the output schema (one with required fields) rejects the
empty object. -/
def c6Skill : BaseSkill Unit :=
  { validate_input := fun _ => .ok ()
    validate_output := fun _ => .error "field required"
    execute := fun _ => { success := true, output := some (.obj []), tokens_used := 11 } }

/-- **C6 counterexample**: the claim quantifies over every successful
`execute` outcome whose output is non-null and fails output validation,
and asserts `run` downgrades it to a `validation_output` failure. For the
empty object — non-null, and rejected by the schema — the code skips
output validation entirely (the Python truthiness test
`if skill_result.success and skill_result.output:` is false for `{}`) and
`run` returns `success=true` with the unvalidated empty output. -/
theorem claim_c6_counterexample :
    (c6Skill.execute ()).success = true ∧
    (c6Skill.execute ()).output = some (.obj []) ∧
    c6Skill.validate_output (.obj []) = .error "field required" ∧
    (c6Skill.run 5 []).success = true ∧
    (c6Skill.run 5 []).output = some (.obj []) ∧
    (c6Skill.run 5 []).error_type = none :=
  ⟨rfl, rfl, rfl, rfl, rfl, rfl⟩

/-- **C6 (amended)**: when `execute` reports success with a non-empty
(truthy) output that fails output-schema validation, `run` returns
`success=false` with `validation_output` classification, the raw
unvalidated output, the `tokens_used` of the execute outcome, and the
measured latency. -/
theorem claim_c6_output_validation_downgrade {V : Type}
    (skill : BaseSkill V) (elapsed : Nat) (raw : JsonDict) (v : V)
    (out : JsonVal) (msg : String)
    (hv : skill.validate_input raw = .ok v)
    (hs : (skill.execute v).success = true)
    (ho : (skill.execute v).output = some out)
    (ht : pyTruthy out = true)
    (hvo : skill.validate_output out = .error msg) :
    skill.run elapsed raw =
      { success := false
        output := some out
        error_type := some .validation_output
        error_message := some msg
        tokens_used := (skill.execute v).tokens_used
        latency_ms := elapsed } := by
  rcases he : skill.execute v with ⟨s, o, et, em, tu, lm⟩
  rw [he] at hs ho
  simp only at hs ho
  subst hs
  subst ho
  rw [run_ok_spec skill elapsed raw v hv]
  simp only []
  rw [he]
  simp [ht, hvo]

/-- A concrete skill whose `execute` reports success with a truthy output
that the output schema rejects. -/
def c6AmendedSkill : BaseSkill Unit :=
  { validate_input := fun _ => .ok ()
    validate_output := fun _ => .error "wrong shape"
    execute := fun _ =>
      { success := true, output := some (.obj [("a", .num 1)]), tokens_used := 42 } }

/-- **C6 witness**: the amended theorem applied to a concrete skill. -/
theorem claim_c6_witness :
    c6AmendedSkill.run 9 [] =
      { success := false
        output := some (.obj [("a", .num 1)])
        error_type := some .validation_output
        error_message := some "wrong shape"
        tokens_used := 42
        latency_ms := 9 } :=
  claim_c6_output_validation_downgrade c6AmendedSkill 9 [] () (.obj [("a", .num 1)])
    "wrong shape" rfl rfl rfl rfl rfl

/-- A concrete skill whose `execute` reports success with a null output. -/
def c7Skill : BaseSkill Unit :=
  { validate_input := fun _ => .ok ()
    validate_output := fun v => .ok v
    execute := fun _ => { success := true, output := none } }

/-- **C7 counterexample**: the claim asserts that `success=true` outcomes
of `run` always carry a non-null, schema-validated output, in particular
when `execute` reports success with a null output. But when `execute`
returns `success=true, output=None`, `run` passes the result through
unchanged: the outcome has `success=true` and a null output. -/
theorem claim_c7_counterexample :
    (c7Skill.run 3 []).success = true ∧ (c7Skill.run 3 []).output = none :=
  ⟨rfl, rfl⟩

/-- If `run` reports success and a truthy output, that output passed the
skill's output-schema validation. -/
theorem run_success_truthy_validated {V : Type}
    (skill : BaseSkill V) (elapsed : Nat) (raw : JsonDict)
    (h : (skill.run elapsed raw).success = true)
    (ht : outputTruthy (skill.run elapsed raw).output = true) :
    ∃ out canon, (skill.run elapsed raw).output = some out ∧
      skill.validate_output out = .ok canon := by
  cases hv : skill.validate_input raw with
  | error msg =>
      rw [run_eq_error skill elapsed raw msg hv] at h
      simp at h
  | ok v =>
      rw [run_ok_spec skill elapsed raw v hv] at h ht ⊢
      simp only at h ht ⊢
      cases hs : (skill.execute v).success with
      | false =>
          rw [hs] at h
          simp at h
      | true =>
          rw [hs] at h ht
          cases ho : (skill.execute v).output with
          | none =>
              rw [ho] at ht
              simp [outputTruthy] at ht
          | some out =>
              rw [ho] at h ht
              simp only at h ht ⊢
              by_cases htr : pyTruthy out = true
              · rw [if_pos htr] at h ht ⊢
                cases hvo : skill.validate_output out with
                | ok canon => exact ⟨out, canon, by simp, hvo⟩
                | error msg =>
                    rw [hvo] at h
                    simp at h
              · rw [if_neg htr] at ht
                simp only [outputTruthy, ho] at ht
                exact absurd ht htr

/-- **C7 (amended)**: a `success=true` outcome of the completion client
always carries the schema-validated, non-null output; a `success=true`
outcome of `run` carries a schema-validated output whenever that output is
truthy — but an execute success with a null or empty output passes through
unvalidated, so the unconditional invariant claimed does not hold. -/
theorem claim_c7_success_implies_validated_output
    (model_validate : JsonVal → Except String JsonVal)
    (json_loads : String → Except String JsonVal)
    (resp : ProviderResponse)
    {V : Type} (skill : BaseSkill V) (elapsed : Nat) (raw : JsonDict)
    (hc : (call_claude_structured model_validate json_loads resp).success = true)
    (hr : (skill.run elapsed raw).success = true) :
    (∃ text usage parsed dumped,
      resp = .ok text usage ∧
      json_loads (stripMarkdownFence text.trim) = .ok parsed ∧
      model_validate parsed = .ok dumped ∧
      (call_claude_structured model_validate json_loads resp).output = some dumped) ∧
    (outputTruthy (skill.run elapsed raw).output = false ∨
      ∃ out canon, (skill.run elapsed raw).output = some out ∧
        skill.validate_output out = .ok canon) := by
  constructor
  · cases resp with
    | rateLimitError m => simp [call_claude_structured] at hc
    | apiError m => simp [call_claude_structured] at hc
    | ok text usage =>
        simp only [call_claude_structured] at hc ⊢
        cases hjson : json_loads (stripMarkdownFence text.trim) with
        | error e =>
            rw [hjson] at hc
            simp at hc
        | ok parsed =>
            rw [hjson] at hc
            simp only [] at hc ⊢
            cases hval : model_validate parsed with
            | error e =>
                rw [hval] at hc
                simp at hc
            | ok dumped =>
                exact ⟨text, usage, parsed, dumped, rfl, hjson, hval, by simp⟩
  · by_cases htr : outputTruthy (skill.run elapsed raw).output = true
    · exact .inr (run_success_truthy_validated skill elapsed raw hr htr)
    · exact .inl (by simpa using htr)

/-- A concrete skill whose `execute` reports success with a truthy,
schema-accepted output. -/
def c7WitnessSkill : BaseSkill Unit :=
  { validate_input := fun _ => .ok ()
    validate_output := fun v => .ok v
    execute := fun _ => { success := true, output := some (.obj [("a", .num 1)]) } }

/-- **C7 witness**: the amended theorem applied to a concrete provider
response and a concrete skill. -/
theorem claim_c7_witness :
    (∃ text usage parsed dumped,
      (ProviderResponse.ok "[1]" ⟨2, 3⟩ : ProviderResponse) = .ok text usage ∧
      (fun _ => (.ok (.arr [.num 1]) : Except String JsonVal)) (stripMarkdownFence ("[1]").trim) = .ok parsed ∧
      (fun v => (.ok v : Except String JsonVal)) parsed = .ok dumped ∧
      (call_claude_structured (fun v => .ok v) (fun _ => .ok (.arr [.num 1]))
        (.ok "[1]" ⟨2, 3⟩)).output = some dumped) ∧
    (outputTruthy (c7WitnessSkill.run 4 []).output = false ∨
      ∃ out canon, (c7WitnessSkill.run 4 []).output = some out ∧
        c7WitnessSkill.validate_output out = .ok canon) :=
  claim_c7_success_implies_validated_output (fun v => .ok v) (fun _ => .ok (.arr [.num 1]))
    (.ok "[1]" ⟨2, 3⟩) c7WitnessSkill 4 [] rfl rfl

/-! ## Claim theorem C8 -/

/-- **C8**: the fence handling of the completion client strips exactly the
first and the last line, and only when the (whitespace-stripped) text
begins with a triple-backtick marker: text not starting with the marker is
passed to the JSON parser unmodified; text starting with it loses its
first line and its last line, the middle lines joined back unchanged (a
single-line fence, which is both first and last line, becomes empty). -/
theorem claim_c8_fence_stripping (t : String) :
    (¬ pyStartsWith t "```" → stripMarkdownFence t = t) ∧
    (pyStartsWith t "```" →
      ∀ (line0 : String) (rest : List String), splitOnNewlines t = line0 :: rest →
        (rest = [] → stripMarkdownFence t = "") ∧
        (∀ (mid : List String) (lastLine : String), rest = mid ++ [lastLine] →
          stripMarkdownFence t = String.intercalate "\n" mid)) := by
  constructor
  · intro h
    simp [stripMarkdownFence, h]
  · intro h line0 rest hsplit
    constructor
    · intro hrest
      subst hrest
      unfold stripMarkdownFence
      rw [if_pos h, hsplit]
      rfl
    · intro mid lastLine hrest
      subst hrest
      unfold stripMarkdownFence
      rw [if_pos h, hsplit]
      simp [List.dropLast_concat]

/-- **C8 witness**: the theorem applied to a response not wrapped in a
fence (parsed unmodified) and to a three-line fenced response (exactly the
first and last lines stripped). -/
theorem claim_c8_witness :
    stripMarkdownFence "[1, 2]" = "[1, 2]" ∧
    stripMarkdownFence "```json\n[1]\n```" = "[1]" := by
  constructor
  · exact (claim_c8_fence_stripping "[1, 2]").1 (by decide)
  · exact (((claim_c8_fence_stripping "```json\n[1]\n```").2 (by decide)
      "```json" ["[1]", "```"] (by decide)).2 ["[1]"] "```" rfl).trans rfl

/-! ## Claim theorems C9 and C10 -/

/-- The registry of `src/skills/registry.py`: the keys of
`SKILL_REGISTRY`, which holds the one reference skill. -/
def registryKeys : List String := ["url_summarizer"]

/-- **C9 counterexample**: the claim says a submission with an empty input
set is rejected synchronously with no batch id and no records. On the JSON
endpoint the code never checks for emptiness: an empty submission for a
registered skill is accepted, a batch id is returned, the batch task is
queued, and `process_skill_batch` then creates a zero-item batch record. -/
theorem claim_c9_counterexample :
    submit_batch registryKeys "batch-1"
        { skill_name := "url_summarizer", inputs := [], webhook_url := none } =
      (.ok { batch_id := "batch-1"
             status := "queued"
             item_count := 0
             message := "Batch queued for processing with skill url_summarizer" },
       [{ batch_id := "batch-1"
          skill_name := "url_summarizer"
          inputs := []
          webhook_url := none }]) ∧
    process_skill_batch registryKeys "batch-1" "url_summarizer" [] =
      .ok (create_batch_job "batch-1" "url_summarizer" 0, []) := by
  constructor
  · rfl
  · rfl

/-- **C9 (amended)**: a submission naming an unregistered skill is
rejected synchronously with a 400, no batch id and no queued work — and
the batch task itself raises before creating any record when handed an
unknown skill. An empty input set, however, is rejected only by the CSV
endpoint; the JSON endpoint accepts it (see the counterexample). -/
theorem claim_c9_unknown_skill_rejected (registry : List String)
    (freshId : String) (sub : BatchSubmission) (skill bid : String)
    (inputs rows : List JsonDict) :
    (sub.skill_name ∉ registry →
      submit_batch registry freshId sub =
        (.httpError 400 ("Unknown skill: " ++ sub.skill_name ++
          ". Use GET /skills to list available skills."), [])) ∧
    (skill ∉ registry →
      process_skill_batch registry bid skill inputs =
        .error ("Unknown skill: " ++ skill)) ∧
    (skill ∈ registry → rows = [] →
      submit_csv_batch registry freshId skill rows =
        (.httpError 400 "CSV file is empty", [])) := by
  refine ⟨?_, ?_, ?_⟩
  · intro h
    simp [submit_batch, h]
  · intro h
    simp [process_skill_batch, h]
  · intro h hr
    subst hr
    simp [submit_csv_batch, h]

/-- **C9 witness**: the amended theorem applied to an unknown skill name
and to an empty CSV upload. -/
theorem claim_c9_witness :
    (submit_batch registryKeys "batch-2"
        { skill_name := "nope", inputs := [[("a", .num 1)]], webhook_url := none } =
      (.httpError 400 "Unknown skill: nope. Use GET /skills to list available skills.", [])) ∧
    (process_skill_batch registryKeys "batch-2" "nope" [[("a", .num 1)]] =
      .error "Unknown skill: nope") ∧
    (submit_csv_batch registryKeys "batch-3" "url_summarizer" [] =
      (.httpError 400 "CSV file is empty", [])) := by
  have h := claim_c9_unknown_skill_rejected registryKeys "batch-2"
    { skill_name := "nope", inputs := [[("a", .num 1)]], webhook_url := none }
    "nope" "batch-2" [[("a", .num 1)]] []
  refine ⟨h.1 (by decide), h.2.1 (by decide), ?_⟩
  have h3 := claim_c9_unknown_skill_rejected registryKeys "batch-3"
    { skill_name := "nope", inputs := [], webhook_url := none }
    "url_summarizer" "batch-3" [] []
  exact h3.2.2 (by decide) rfl

/-- **C10**: while the observed batch status is missing or not
`completed`, `notify_completion` reschedules the same check with a fixed
30 second countdown; on a completed status it builds the payload
`batch_id, status, total, completed, failed` and attempts exactly one
delivery — a failed post is recorded as `deliveryFailed` and nothing is
rescheduled; over any whole observation sequence the loop makes at most
one delivery attempt. -/
theorem claim_c10_notifier_at_most_once (batch_id : String)
    (stA stB : BatchStatusView) (post : WebhookPayload → Except String Unit)
    (obs : List (Option BatchStatusView))
    (hA : stA.status ≠ "completed") (hB : stB.status = "completed") :
    notify_completion batch_id (some stA) post = .rescheduled 30 ∧
    notify_completion batch_id none post = .rescheduled 30 ∧
    ((post ⟨batch_id, "completed", stB.total, stB.completed, stB.failed⟩ = .ok () →
        notify_completion batch_id (some stB) post =
          .delivered ⟨batch_id, "completed", stB.total, stB.completed, stB.failed⟩) ∧
      (∀ e, post ⟨batch_id, "completed", stB.total, stB.completed, stB.failed⟩ = .error e →
        notify_completion batch_id (some stB) post =
          .deliveryFailed ⟨batch_id, "completed", stB.total, stB.completed, stB.failed⟩ e)) ∧
    notifyDeliveryAttempts batch_id post obs ≤ 1 := by
  refine ⟨?_, ?_, ⟨?_, ?_⟩, ?_⟩
  · simp [notify_completion, hA]
  · simp [notify_completion]
  · intro hpost
    simp [notify_completion, hB, hpost]
  · intro e hpost
    simp [notify_completion, hB, hpost]
  · induction obs with
    | nil => simp [notifyDeliveryAttempts]
    | cons st0 rest ih =>
        simp only [notifyDeliveryAttempts]
        cases hn : notify_completion batch_id st0 post with
        | delivered p => simp
        | deliveryFailed p e => simp
        | rescheduled c => simpa using ih

/-- A batch status view that is still processing. -/
def processingView : BatchStatusView :=
  { status := "processing", total := 3, completed := 1, failed := 0 }

/-- A completed batch status view. -/
def completedView : BatchStatusView :=
  { status := "completed", total := 3, completed := 2, failed := 1 }

/-- **C10 witness**: the theorem applied to a processing view, a completed
view, an always-succeeding post, and a two-step observation sequence. -/
theorem claim_c10_witness :
    notify_completion "b" (some processingView)
        (fun (_ : WebhookPayload) => (.ok () : Except String Unit)) = .rescheduled 30 ∧
    notify_completion "b" none
        (fun (_ : WebhookPayload) => (.ok () : Except String Unit)) = .rescheduled 30 ∧
    (((fun (_ : WebhookPayload) => (.ok () : Except String Unit))
        ⟨"b", "completed", completedView.total, completedView.completed, completedView.failed⟩ = .ok () →
        notify_completion "b" (some completedView)
            (fun (_ : WebhookPayload) => (.ok () : Except String Unit)) =
          .delivered ⟨"b", "completed", completedView.total, completedView.completed, completedView.failed⟩) ∧
      (∀ e, (fun (_ : WebhookPayload) => (.ok () : Except String Unit))
          ⟨"b", "completed", completedView.total, completedView.completed, completedView.failed⟩ = .error e →
        notify_completion "b" (some completedView)
            (fun (_ : WebhookPayload) => (.ok () : Except String Unit)) =
          .deliveryFailed ⟨"b", "completed", completedView.total, completedView.completed, completedView.failed⟩ e)) ∧
    notifyDeliveryAttempts "b" (fun (_ : WebhookPayload) => (.ok () : Except String Unit))
      [some processingView, some completedView] ≤ 1 :=
  claim_c10_notifier_at_most_once "b" processingView completedView
    (fun (_ : WebhookPayload) => (.ok () : Except String Unit))
    [some processingView, some completedView] (by decide) rfl

end SkillFactory
